import Mathlib

/-!
Verification of the data-fetch-and-normalize pipeline of `src/main.py`
(a small dashboard script: database fetch, address extraction from a
JSON-encoded column, deduplication by client identifier, and a chat
transcript builder).

Python values flowing through the script are modelled by the inductive
type `PyVal`; code that can raise is modelled in `Except PyErr`; the
`json.loads` library call is modelled by an arbitrary partial parsing
function `jloads : String → Option PyVal`, where `none` stands for a
caught `JSONDecodeError`. Database effects are modelled by explicit
oracle structures recording what each connect/execute step would return,
and the result of a fetch records the reported errors and which
connection and cursor handles were opened and closed.
-/

/-- A dynamically typed Python value: `None`, booleans, integers, strings,
lists, and dictionaries with string keys (the shapes `json.loads` can
produce, plus whatever a database column may already hold). -/
inductive PyVal : Type where
  | vNone : PyVal
  | vBool : Bool → PyVal
  | vInt : Int → PyVal
  | vStr : String → PyVal
  | vList : List PyVal → PyVal
  | vDict : List (String × PyVal) → PyVal

/-- A raised Python exception, as far as the modelled code can raise one. -/
inductive PyErr : Type where
  | attributeError : PyErr
deriving DecidableEq

/-- Python `v.get(key, dflt)`: succeeds on a dictionary (value of the key,
or the default when the key is absent) and raises `AttributeError` on every
other value. -/
def pyGet (v : PyVal) (key : String) (dflt : PyVal) : Except PyErr PyVal :=
  match v with
  | PyVal.vDict entries => Except.ok ((entries.lookup key).getD dflt)
  | _ => Except.error PyErr.attributeError

/-- The second half of `extract_address` in `src/main.py` (lines 97-103):
the checks run on the (possibly parsed) value. A non-empty list has its
element 0 queried for `city`, `state`, `street` with default `""`;
anything else yields `("", "", "")`. -/
def extract_from_value (addresses : PyVal) : Except PyErr (PyVal × PyVal × PyVal) :=
  match addresses with
  | PyVal.vList (address :: _) => do
      let city ← pyGet address "city" (PyVal.vStr "")
      let state ← pyGet address "state" (PyVal.vStr "")
      let street ← pyGet address "street" (PyVal.vStr "")
      Except.ok (city, state, street)
  | _ => Except.ok (PyVal.vStr "", PyVal.vStr "", PyVal.vStr "")

/-- `extract_address` of `src/main.py` (lines 90-103). A string input is
parsed with `json.loads` (modelled by `jloads`); a parse failure is caught
and yields `("", "", "")`. Every other input, and a successfully parsed
value, falls through to the list check of `extract_from_value`. -/
def extract_address (jloads : String → Option PyVal) (addresses : PyVal) :
    Except PyErr (PyVal × PyVal × PyVal) :=
  match addresses with
  | PyVal.vStr s =>
      match jloads s with
      | none => Except.ok (PyVal.vStr "", PyVal.vStr "", PyVal.vStr "")
      | some parsed => extract_from_value parsed
  | other => extract_from_value other

/-- Decides whether a value is a non-empty Python list. -/
def isNonEmptyList : PyVal → Bool
  | PyVal.vList (_ :: _) => true
  | _ => false

/-- A parser stub that fails on every string (enough for inputs that are
not strings, or strings that are invalid JSON). -/
def jloadsNone : String → Option PyVal := fun _ => none

/-- A parser fragment agreeing with `json.loads` on the single input
`"[1]"` (which parses to the list `[1]`). -/
def jloadsOneInt : String → Option PyVal := fun s =>
  if s = "[1]" then some (PyVal.vList [PyVal.vInt 1]) else none

/-- A parser fragment mapping the string `"addr"` to a one-element list of
an address object with `city` and `state` but no `street` key. -/
def jloadsAddr : String → Option PyVal := fun s =>
  if s = "addr" then
    some (PyVal.vList [PyVal.vDict [("city", PyVal.vStr "Austin"), ("state", PyVal.vStr "TX")]])
  else none

theorem extract_from_value_of_not_list (v : PyVal) (h : isNonEmptyList v = false) :
    extract_from_value v = Except.ok (PyVal.vStr "", PyVal.vStr "", PyVal.vStr "") := by
  cases v with
  | vList l => cases l with
    | nil => rfl
    | cons a t => simp [isNonEmptyList] at h
  | vNone => rfl
  | vBool b => rfl
  | vInt n => rfl
  | vStr s => rfl
  | vDict d => rfl

/-- C1 counterexample: an input that is not a string but already a
non-empty list of address objects is processed, not collapsed to empty
strings, so the claim as stated fails. -/
theorem extract_address_nonstring_list_cex :
    extract_address jloadsNone
        (PyVal.vList [PyVal.vDict [("city", PyVal.vStr "Austin")]]) =
      Except.ok (PyVal.vStr "Austin", PyVal.vStr "", PyVal.vStr "") ∧
    ¬ extract_address jloadsNone
        (PyVal.vList [PyVal.vDict [("city", PyVal.vStr "Austin")]]) =
      Except.ok (PyVal.vStr "", PyVal.vStr "", PyVal.vStr "") := by
  constructor
  · rfl
  · intro h
    rw [show extract_address jloadsNone
        (PyVal.vList [PyVal.vDict [("city", PyVal.vStr "Austin")]]) =
        Except.ok (PyVal.vStr "Austin", PyVal.vStr "", PyVal.vStr "") from rfl] at h
    simp at h

/-- C1 (amended): `extract_address` returns `("", "", "")` whenever the
input is a string that fails JSON parsing, or a string whose parsed value
is not a non-empty list, or a non-string value that is not itself a
non-empty list. (A non-string that already is a non-empty list is
processed like a parsed list.) -/
theorem extract_address_empty_cases (jloads : String → Option PyVal) (raw : PyVal)
    (h : (∃ s, raw = PyVal.vStr s ∧ jloads s = none) ∨
         (∃ s v, raw = PyVal.vStr s ∧ jloads s = some v ∧ isNonEmptyList v = false) ∨
         ((∀ s, raw ≠ PyVal.vStr s) ∧ isNonEmptyList raw = false)) :
    extract_address jloads raw = Except.ok (PyVal.vStr "", PyVal.vStr "", PyVal.vStr "") := by
  rcases h with ⟨s, rfl, hp⟩ | ⟨s, v, rfl, hp, hv⟩ | ⟨hs, hv⟩
  · simp [extract_address, hp]
  · simp [extract_address, hp, extract_from_value_of_not_list v hv]
  · cases raw with
    | vStr s => exact absurd rfl (hs s)
    | vNone => exact extract_from_value_of_not_list _ hv
    | vBool b => exact extract_from_value_of_not_list _ hv
    | vInt n => exact extract_from_value_of_not_list _ hv
    | vList l => exact extract_from_value_of_not_list _ hv
    | vDict d => exact extract_from_value_of_not_list _ hv

theorem extract_address_empty_cases_witness :
    extract_address jloadsNone PyVal.vNone =
      Except.ok (PyVal.vStr "", PyVal.vStr "", PyVal.vStr "") :=
  extract_address_empty_cases jloadsNone PyVal.vNone
    (Or.inr (Or.inr ⟨fun _ hs => PyVal.noConfusion hs, rfl⟩))

/-- C2: evaluation at the failing input. The JSON string `"[1]"` parses to
the non-empty list `[1]`, whose element 0 is an integer; the code then
calls `.get` on it, which raises `AttributeError` instead of returning a
triple. This contradicts the contract that `extract_address` never
raises. -/
theorem extract_address_attribute_error_eval :
    extract_address jloadsOneInt (PyVal.vStr "[1]") = Except.error PyErr.attributeError := by
  rfl

/-- C7: for a string whose parse is a list with an address object (a
dictionary) as element 0, the result is exactly the `city`, `state` and
`street` values of element 0 when the key is present, and `""` when the
key is absent; later elements of the list are ignored. -/
theorem extract_address_wellformed_first (jloads : String → Option PyVal)
    (s : String) (d : List (String × PyVal)) (rest : List PyVal)
    (h : jloads s = some (PyVal.vList (PyVal.vDict d :: rest))) :
    extract_address jloads (PyVal.vStr s) =
      Except.ok ((d.lookup "city").getD (PyVal.vStr ""),
                 (d.lookup "state").getD (PyVal.vStr ""),
                 (d.lookup "street").getD (PyVal.vStr "")) := by
  simp only [extract_address, h, extract_from_value, pyGet]
  rfl

theorem extract_address_wellformed_first_witness :
    extract_address jloadsAddr (PyVal.vStr "addr") =
      Except.ok (PyVal.vStr "Austin", PyVal.vStr "TX", PyVal.vStr "") :=
  (extract_address_wellformed_first jloadsAddr "addr"
      [("city", PyVal.vStr "Austin"), ("state", PyVal.vStr "TX")] [] rfl).trans rfl

/-- One row of the stage query result set: the columns projected by the
queries in `src/main.py` (lines 43-57 and 68-82). -/
structure Row where
  client_id : Int
  current_stage : Int
  created_on : String
  client_fullname : String
  fphone1 : Option String
  addresses : PyVal
  assigned_employee_fullname : Option String

/-- A `Row` with the derived `city`, `state`, `street` columns appended by
`process_data` (line 105). -/
structure NormRow where
  client_id : Int
  current_stage : Int
  created_on : String
  client_fullname : String
  fphone1 : Option String
  addresses : PyVal
  assigned_employee_fullname : Option String
  city : PyVal
  state : PyVal
  street : PyVal

/-- The worker of `df.drop_duplicates(subset=[..])` keyed on `client_id`
(line 108): walk the rows in order, keeping a row when its identifier has
not been seen yet. -/
def drop_duplicates_go (seen : List Int) : List NormRow → List NormRow
  | [] => []
  | r :: rs =>
      if r.client_id ∈ seen then drop_duplicates_go seen rs
      else r :: drop_duplicates_go (r.client_id :: seen) rs

/-- `df.drop_duplicates(subset=["client_id"])` of `process_data`
(line 108): pandas keeps the first occurrence of each key by default. -/
def drop_duplicates (rows : List NormRow) : List NormRow :=
  drop_duplicates_go [] rows

/-- Appends the derived address columns of one row (the element-wise work
of line 105). -/
def add_address_columns (jloads : String → Option PyVal) (r : Row) :
    Except PyErr NormRow := do
  let v ← extract_address jloads r.addresses
  Except.ok { client_id := r.client_id, current_stage := r.current_stage,
              created_on := r.created_on, client_fullname := r.client_fullname,
              fphone1 := r.fphone1, addresses := r.addresses,
              assigned_employee_fullname := r.assigned_employee_fullname,
              city := v.1, state := v.2.1, street := v.2.2 }

/-- `process_data` of `src/main.py` (lines 89-110): derive the address
columns for every row, then deduplicate by `client_id`. -/
def process_data (jloads : String → Option PyVal) (df : List Row) :
    Except PyErr (List NormRow) := do
  let rows ← df.mapM (add_address_columns jloads)
  Except.ok (drop_duplicates rows)

theorem drop_duplicates_go_sublist (rows : List NormRow) :
    ∀ seen, (drop_duplicates_go seen rows).Sublist rows := by
  induction rows with
  | nil => intro seen; simp [drop_duplicates_go]
  | cons r rs ih =>
      intro seen
      by_cases h : r.client_id ∈ seen
      · simp only [drop_duplicates_go, if_pos h]
        exact (ih seen).cons r
      · simp only [drop_duplicates_go, if_neg h]
        exact (ih _).cons₂ r

theorem drop_duplicates_go_mem_map (rows : List NormRow) :
    ∀ seen id, id ∈ (drop_duplicates_go seen rows).map NormRow.client_id ↔
      (id ∈ rows.map NormRow.client_id ∧ id ∉ seen) := by
  induction rows with
  | nil => intro seen id; simp [drop_duplicates_go]
  | cons r rs ih =>
      intro seen id
      by_cases h : r.client_id ∈ seen
      · simp only [drop_duplicates_go, if_pos h, List.map_cons, List.mem_cons, ih]
        constructor
        · rintro ⟨hm, hn⟩
          exact ⟨Or.inr hm, hn⟩
        · rintro ⟨heq | hm, hn⟩
          · exact absurd h (heq ▸ hn)
          · exact ⟨hm, hn⟩
      · simp only [drop_duplicates_go, if_neg h, List.map_cons, List.mem_cons, ih]
        constructor
        · rintro (heq | ⟨hm, hn⟩)
          · exact ⟨Or.inl heq, fun hid => h (heq ▸ hid)⟩
          · exact ⟨Or.inr hm, fun hid => hn (Or.inr hid)⟩
        · rintro ⟨heq | hm, hn⟩
          · exact Or.inl heq
          · by_cases hid : id = r.client_id
            · exact Or.inl hid
            · exact Or.inr ⟨hm, fun hc => hc.elim hid hn⟩

theorem drop_duplicates_go_nodup (rows : List NormRow) :
    ∀ seen, ((drop_duplicates_go seen rows).map NormRow.client_id).Nodup := by
  induction rows with
  | nil => intro seen; simp [drop_duplicates_go]
  | cons r rs ih =>
      intro seen
      by_cases h : r.client_id ∈ seen
      · simpa only [drop_duplicates_go, if_pos h] using ih seen
      · simp only [drop_duplicates_go, if_neg h, List.map_cons, List.nodup_cons]
        refine ⟨fun hmem => ?_, ih _⟩
        exact ((drop_duplicates_go_mem_map rs _ _).mp hmem).2 (List.mem_cons_self _ _)

theorem drop_duplicates_go_find (rows : List NormRow) :
    ∀ seen id, id ∉ seen →
      (drop_duplicates_go seen rows).find? (fun r => r.client_id == id) =
        rows.find? (fun r => r.client_id == id) := by
  induction rows with
  | nil => intro seen id h; rfl
  | cons r rs ih =>
      intro seen id hid
      by_cases h : r.client_id ∈ seen
      · have hne : ¬ ((fun x : NormRow => x.client_id == id) r) = true := by
          intro hp
          exact hid ((eq_of_beq hp) ▸ h)
        simp only [drop_duplicates_go, if_pos h]
        rw [List.find?_cons_of_neg (p := fun x : NormRow => x.client_id == id) _ hne]
        exact ih seen id hid
      · simp only [drop_duplicates_go, if_neg h]
        by_cases hp : ((fun x : NormRow => x.client_id == id) r) = true
        · rw [List.find?_cons_of_pos (p := fun x : NormRow => x.client_id == id) _ hp,
              List.find?_cons_of_pos (p := fun x : NormRow => x.client_id == id) _ hp]
        · rw [List.find?_cons_of_neg (p := fun x : NormRow => x.client_id == id) _ hp,
              List.find?_cons_of_neg (p := fun x : NormRow => x.client_id == id) _ hp]
          apply ih
          intro hc
          rcases List.mem_cons.mp hc with h1 | h2
          · exact hp (beq_iff_eq.mpr h1.symm)
          · exact hid h2

theorem drop_duplicates_go_fix (rows : List NormRow) :
    ∀ seen, (rows.map NormRow.client_id).Nodup →
      (∀ r ∈ rows, r.client_id ∉ seen) → drop_duplicates_go seen rows = rows := by
  induction rows with
  | nil => intro seen _ _; rfl
  | cons r rs ih =>
      intro seen hnd hdis
      rw [List.map_cons, List.nodup_cons] at hnd
      have hnd2 := hnd
      have h : r.client_id ∉ seen := hdis r (List.mem_cons_self _ _)
      simp only [drop_duplicates_go, if_neg h]
      congr 1
      apply ih _ hnd2.2
      intro x hx hc
      rcases List.mem_cons.mp hc with h1 | h2
      · exact hnd2.1 (h1 ▸ List.mem_map_of_mem NormRow.client_id hx)
      · exact hdis x (List.mem_cons_of_mem _ hx) h2

/-- A sample normalized row with only the key fields varied. -/
def mkRow (id stage : Int) : NormRow :=
  { client_id := id, current_stage := stage, created_on := "2024-01-01",
    client_fullname := "Jane Roe", fphone1 := none, addresses := PyVal.vNone,
    assigned_employee_fullname := none, city := PyVal.vStr "",
    state := PyVal.vStr "", street := PyVal.vStr "" }

/-- Two rows sharing `client_id = 7` (stages 5 and 6) and one row with
`client_id = 9`, the end-to-end scenario C of the specification. -/
def exRows : List NormRow := [mkRow 7 5, mkRow 7 6, mkRow 9 1]

/-- C3: deduplication by `client_id` keeps exactly one row per distinct
identifier (the identifiers of the result are without duplicates and cover
exactly the input identifiers), the kept row is the first occurrence in
input order (the result is a sublist of the input whose first hit for any
input identifier agrees with the first hit in the input), the result is at
most as long as the input, and its length equals the number of distinct
identifiers. -/
theorem drop_duplicates_first_occurrence (rows : List NormRow) (id : Int)
    (h : id ∈ rows.map NormRow.client_id) :
    ((drop_duplicates rows).map NormRow.client_id).Nodup ∧
    id ∈ (drop_duplicates rows).map NormRow.client_id ∧
    (drop_duplicates rows).find? (fun x : NormRow => x.client_id == id) =
      rows.find? (fun x : NormRow => x.client_id == id) ∧
    (drop_duplicates rows).Sublist rows ∧
    (drop_duplicates rows).length ≤ rows.length ∧
    (drop_duplicates rows).length = (rows.map NormRow.client_id).toFinset.card := by
  have hsub := drop_duplicates_go_sublist rows []
  have hnodup := drop_duplicates_go_nodup rows []
  have hmem : ∀ i : Int, i ∈ (drop_duplicates rows).map NormRow.client_id ↔
      i ∈ rows.map NormRow.client_id := by
    intro i
    rw [drop_duplicates, drop_duplicates_go_mem_map rows [] i]
    simp
  refine ⟨hnodup, (hmem id).mpr h, ?_, hsub, hsub.length_le, ?_⟩
  · exact drop_duplicates_go_find rows [] id (List.not_mem_nil id)
  · have hfin : ((drop_duplicates rows).map NormRow.client_id).toFinset =
        (rows.map NormRow.client_id).toFinset := by
      apply Finset.ext
      intro i
      simp only [List.mem_toFinset]
      exact hmem i
    calc (drop_duplicates rows).length
        = ((drop_duplicates rows).map NormRow.client_id).length :=
          (List.length_map _ _).symm
      _ = ((drop_duplicates rows).map NormRow.client_id).toFinset.card :=
          (List.toFinset_card_of_nodup hnodup).symm
      _ = (rows.map NormRow.client_id).toFinset.card := by rw [hfin]

theorem drop_duplicates_first_occurrence_witness :
    7 ∈ (exRows.map NormRow.client_id) ∧
    ((drop_duplicates exRows).map NormRow.client_id).Nodup ∧
    (drop_duplicates exRows).find? (fun x : NormRow => x.client_id == 7) =
      exRows.find? (fun x : NormRow => x.client_id == 7) ∧
    (drop_duplicates exRows).length = (exRows.map NormRow.client_id).toFinset.card :=
  ⟨by decide,
   (drop_duplicates_first_occurrence exRows 7 (by decide)).1,
   (drop_duplicates_first_occurrence exRows 7 (by decide)).2.2.1,
   (drop_duplicates_first_occurrence exRows 7 (by decide)).2.2.2.2.2⟩

/-- C8: deduplication by `client_id` is idempotent: running
`drop_duplicates` on its own output returns that output unchanged. -/
theorem drop_duplicates_idempotent (rows : List NormRow) :
    drop_duplicates (drop_duplicates rows) = drop_duplicates rows := by
  apply drop_duplicates_go_fix
  · exact drop_duplicates_go_nodup rows []
  · intro r _ hc
    exact List.not_mem_nil r.client_id hc

/-- A pandas DataFrame, as far as the script uses one: column names plus
rows of values. -/
structure DataFrame where
  columns : List String
  records : List (List PyVal)

/-- `pd.DataFrame()` with no arguments: the empty table returned on the
error path of `fetch_data` (line 31). -/
def DataFrame.emptyFrame : DataFrame := { columns := [], records := [] }

/-- Oracle for one `fetch_data` call. `connect = some msg` means
`psycopg2.connect` raises with message `msg`; `run q ps` is the combined
outcome of `cursor()`, `execute`, `fetchall` and `description` for the
statement `q` with parameters `ps`: either an error message or the records
together with the column names. -/
structure Db where
  connect : Option String
  run : String → List PyVal → Except String (List (List PyVal) × List String)

/-- The outcome of a `fetch_data` call: the messages reported through
`st.error`, the returned table, and which handles the call opened and
closed. -/
structure FetchOutcome where
  errors : List String
  df : DataFrame
  connOpened : Bool
  connClosed : Bool
  curOpened : Bool
  curClosed : Bool

/-- `fetch_data` of `src/main.py` (lines 18-36). On a connect failure the
except branch reports the error and returns an empty frame; the finally
block closes nothing because neither handle was assigned. On an execution
failure both handles exist, the error is reported, an empty frame is
returned and the finally block closes both. On success the frame is built
from the records and column names and the finally block closes both. -/
def fetch_data (db : Db) (query : String) (params : List PyVal) : FetchOutcome :=
  match db.connect with
  | some msg =>
      { errors := ["Error fetching records: " ++ msg],
        df := DataFrame.emptyFrame,
        connOpened := false, connClosed := false,
        curOpened := false, curClosed := false }
  | none =>
      match db.run query params with
      | Except.error msg =>
          { errors := ["Error fetching records: " ++ msg],
            df := DataFrame.emptyFrame,
            connOpened := true, connClosed := true,
            curOpened := true, curClosed := true }
      | Except.ok (records, column_names) =>
          { errors := [],
            df := { columns := column_names, records := records },
            connOpened := true, connClosed := true,
            curOpened := true, curClosed := true }

/-- C4: whenever a `fetch_data` call fails, at connect time or during
execution, the failure is reported through the error channel and the empty
table is returned; the call itself always produces a value, never a raised
exception. -/
theorem fetch_data_error_swallowed (db : Db) (query : String) (params : List PyVal)
    (h : db.connect ≠ none ∨ (∃ m, db.run query params = Except.error m)) :
    (fetch_data db query params).errors ≠ [] ∧
    (fetch_data db query params).df = DataFrame.emptyFrame := by
  rcases hc : db.connect with _ | msg
  · rcases h with hconn | ⟨m, hrun⟩
    · exact absurd hc hconn
    · simp [fetch_data, hc, hrun]
  · simp [fetch_data, hc]

/-- A database oracle whose connect step fails with a connection refusal. -/
def exDbDown : Db :=
  { connect := some "connection refused", run := fun _ _ => Except.ok ([], []) }

theorem fetch_data_error_swallowed_witness :
    (fetch_data exDbDown "SELECT 1" []).errors ≠ [] ∧
    (fetch_data exDbDown "SELECT 1" []).df = DataFrame.emptyFrame :=
  fetch_data_error_swallowed exDbDown "SELECT 1" [] (Or.inl (by simp [exDbDown]))

/-- One message of the chat transcript built by `fetch_chat_data`. -/
structure ChatMessage where
  timestamp : String
  role : String
  message : String
deriving DecidableEq

/-- The role assigned to one chat row by the status check of
`fetch_chat_data` (lines 137-140): the role is the string `client` exactly
when the raw status equals `Received`, and `sales_rep` otherwise. -/
def msgRole (status : String) : String :=
  if status = "Received" then "client" else "sales_rep"

/-- The transcript loop of `fetch_chat_data` (lines 135-140) over the
fetched chat rows `(timestamp, status, message)`. -/
def build_chat_transcript (chats : List (String × String × String)) : List ChatMessage :=
  chats.map (fun c => { timestamp := c.1, role := msgRole c.2.1, message := c.2.2 })

/-- Oracle for one `fetch_chat_data` call: the outcome of the connect
step, of the chat-history execute plus fetchall, and of the client-lookup
execute plus fetchone, the latter two as functions of the client
identifier bound into the statements. -/
structure ChatDb where
  connect : Option String
  runChat : Int → Except String (List (String × String × String))
  runClient : Int → Except String (Option (String × Int × String))

/-- The outcome of a `fetch_chat_data` call: reported errors, the three
returned values, and which handles the call opened and closed. -/
structure ChatOutcome where
  errors : List String
  transcript : List ChatMessage
  client_name : Option String
  assigned_employee_name : Option String
  connOpened : Bool
  connClosed : Bool
  curOpened : Bool
  curClosed : Bool
deriving DecidableEq

/-- The message reported by the except branch of `fetch_chat_data`. -/
def chatErr (client_id : Int) (msg : String) : String :=
  "Error fetching chat data for client ID " ++ toString client_id ++ ": " ++ msg

/-- `fetch_chat_data` of `src/main.py` (lines 113-155). The happy path
executes the chat query, the client lookup, builds the transcript, picks
either the looked-up names or the placeholder names, closes the cursor
and the connection, and returns. The except branch reports the error and
returns `([], None, None)`; it contains no close calls and there is no
finally block, so handles opened before the failure stay open. -/
def fetch_chat_data (db : ChatDb) (client_id : Int) : ChatOutcome :=
  match db.connect with
  | some msg =>
      { errors := [chatErr client_id msg], transcript := [],
        client_name := none, assigned_employee_name := none,
        connOpened := false, connClosed := false,
        curOpened := false, curClosed := false }
  | none =>
      match db.runChat client_id with
      | Except.error msg =>
          { errors := [chatErr client_id msg], transcript := [],
            client_name := none, assigned_employee_name := none,
            connOpened := true, connClosed := false,
            curOpened := true, curClosed := false }
      | Except.ok chats =>
          match db.runClient client_id with
          | Except.error msg =>
              { errors := [chatErr client_id msg], transcript := [],
                client_name := none, assigned_employee_name := none,
                connOpened := true, connClosed := false,
                curOpened := true, curClosed := false }
          | Except.ok client_info =>
              match client_info with
              | some info =>
                  { errors := [], transcript := build_chat_transcript chats,
                    client_name := some info.1,
                    assigned_employee_name := some info.2.2,
                    connOpened := true, connClosed := true,
                    curOpened := true, curClosed := true }
              | none =>
                  { errors := [], transcript := build_chat_transcript chats,
                    client_name := some "Client",
                    assigned_employee_name := some "Sales Rep",
                    connOpened := true, connClosed := true,
                    curOpened := true, curClosed := true }

/-- A chat oracle where the connection succeeds and the chat-history
execute raises (the server drops the connection mid-call). -/
def exChatDbExecFail : ChatDb :=
  { connect := none,
    runChat := fun _ => Except.error "server closed the connection unexpectedly",
    runClient := fun _ => Except.ok none }

/-- C5: evaluation at the failing input. When the chat-history execute
raises after the connection and cursor were opened, `fetch_chat_data`
returns through its except branch with both handles still open: the
release-on-every-exit-path contract fails for this fetch. -/
theorem fetch_chat_data_leaks_on_error :
    (fetch_chat_data exChatDbExecFail 7).connOpened = true ∧
    (fetch_chat_data exChatDbExecFail 7).connClosed = false ∧
    (fetch_chat_data exChatDbExecFail 7).curOpened = true ∧
    (fetch_chat_data exChatDbExecFail 7).curClosed = false :=
  ⟨rfl, rfl, rfl, rfl⟩

/-- `fetch_data`, by contrast, closes exactly the handles it opened on
every path, thanks to its finally block. -/
theorem fetch_data_releases_handles (db : Db) (query : String) (params : List PyVal) :
    (fetch_data db query params).connClosed = (fetch_data db query params).connOpened ∧
    (fetch_data db query params).curClosed = (fetch_data db query params).curOpened := by
  rcases hc : db.connect with _ | msg
  · rcases hr : db.run query params with msg | recs
    · simp [fetch_data, hc, hr]
    · rcases recs with ⟨records, column_names⟩
      simp [fetch_data, hc, hr]
  · simp [fetch_data, hc]

theorem fetch_data_releases_handles_witness :
    (fetch_data exDbDown "SELECT 1" []).connClosed =
      (fetch_data exDbDown "SELECT 1" []).connOpened ∧
    (fetch_data exDbDown "SELECT 1" []).curClosed =
      (fetch_data exDbDown "SELECT 1" []).curOpened :=
  fetch_data_releases_handles exDbDown "SELECT 1" []

/-- C6: the role mapping of the transcript builder is total and binary:
every status string is assigned a role, the role is `client` exactly when
the status equals `Received`, `sales_rep` in every other case, and this is
the role recorded for a chat row with that status. -/
theorem chat_role_total_binary (status : String) :
    (msgRole status = "client" ↔ status = "Received") ∧
    (status ≠ "Received" → msgRole status = "sales_rep") ∧
    (msgRole status = "client" ∨ msgRole status = "sales_rep") ∧
    (∀ ts msg : String, build_chat_transcript [(ts, status, msg)] =
      [{ timestamp := ts, role := msgRole status, message := msg }]) := by
  by_cases h : status = "Received"
  · refine ⟨?_, fun hn => absurd h hn, Or.inl ?_, fun ts msg => rfl⟩
    · simp [msgRole, h]
    · simp [msgRole, h]
  · refine ⟨?_, fun _ => ?_, Or.inr ?_, fun ts msg => rfl⟩
    · simp [msgRole, h]
    · simp [msgRole, h]
    · simp [msgRole, h]

theorem chat_role_total_binary_witness :
    msgRole "Received" = "client" ∧ msgRole "Sent" = "sales_rep" :=
  ⟨(chat_role_total_binary "Received").1.mpr rfl,
   (chat_role_total_binary "Sent").2.1 (by decide)⟩

/-- C9: when every database step succeeds and the client lookup returns no
row, `fetch_chat_data` reports no error, still returns the transcript
built from the chat rows, and substitutes the placeholder display names
`Client` and `Sales Rep`. -/
theorem fetch_chat_data_placeholder_names (db : ChatDb) (client_id : Int)
    (chats : List (String × String × String))
    (hconn : db.connect = none)
    (hchat : db.runChat client_id = Except.ok chats)
    (hclient : db.runClient client_id = Except.ok none) :
    fetch_chat_data db client_id =
      { errors := [], transcript := build_chat_transcript chats,
        client_name := some "Client", assigned_employee_name := some "Sales Rep",
        connOpened := true, connClosed := true,
        curOpened := true, curClosed := true } := by
  simp [fetch_chat_data, hconn, hchat, hclient]

/-- A chat oracle where all steps succeed, one chat row exists, and the
client lookup finds no row. -/
def exChatDbNoClient : ChatDb :=
  { connect := none,
    runChat := fun _ => Except.ok [("09:30 01/02/2024", "Received", "hello")],
    runClient := fun _ => Except.ok none }

theorem fetch_chat_data_placeholder_names_witness :
    fetch_chat_data exChatDbNoClient 7 =
      { errors := [],
        transcript := build_chat_transcript [("09:30 01/02/2024", "Received", "hello")],
        client_name := some "Client", assigned_employee_name := some "Sales Rep",
        connOpened := true, connClosed := true,
        curOpened := true, curClosed := true } :=
  fetch_chat_data_placeholder_names exChatDbNoClient 7
    [("09:30 01/02/2024", "Received", "hello")] rfl rfl rfl

/-- C10: when any database step of `fetch_chat_data` fails, at connect
time, in the chat-history query, or in the client lookup, the call reports
exactly one error and returns the empty transcript together with `None`
for both the client name and the assigned-employee name, not the
placeholder display names. -/
theorem fetch_chat_data_error_returns_none (db : ChatDb) (client_id : Int)
    (h : db.connect ≠ none ∨
         (∃ m, db.runChat client_id = Except.error m) ∨
         (∃ m, db.runClient client_id = Except.error m)) :
    (fetch_chat_data db client_id).errors ≠ [] ∧
    (fetch_chat_data db client_id).transcript = [] ∧
    (fetch_chat_data db client_id).client_name = none ∧
    (fetch_chat_data db client_id).assigned_employee_name = none := by
  rcases hc : db.connect with _ | msg
  · rcases hr : db.runChat client_id with m | chats
    · simp [fetch_chat_data, hc, hr, chatErr]
    · rcases hcl : db.runClient client_id with m | info
      · simp [fetch_chat_data, hc, hr, hcl, chatErr]
      · rcases h with hconn | ⟨m, hm⟩ | ⟨m, hm⟩
        · exact absurd hc hconn
        · rw [hr] at hm
          exact absurd hm (by simp)
        · rw [hcl] at hm
          exact absurd hm (by simp)
  · simp [fetch_chat_data, hc, chatErr]

theorem fetch_chat_data_error_returns_none_witness :
    (fetch_chat_data exChatDbExecFail 7).errors ≠ [] ∧
    (fetch_chat_data exChatDbExecFail 7).transcript = [] ∧
    (fetch_chat_data exChatDbExecFail 7).client_name = none ∧
    (fetch_chat_data exChatDbExecFail 7).assigned_employee_name = none :=
  fetch_chat_data_error_returns_none exChatDbExecFail 7
    (Or.inr (Or.inl ⟨"server closed the connection unexpectedly", rfl⟩))
